import Mathlib

/-!
Verification development for the surface-constrained drag-transform engine
(PrusaSlicer, src/slic3r/GUI/SurfaceDrag.cpp).

The C++ code is shallowly embedded: Eigen vectors and matrices become exact
real-valued records, Eigen affine transforms become a linear part plus a
translation, optional values become Option, and the GUI state touched by the
drag controller (canvas volumes, model objects, selection, hover index,
picking/moving flags, the drag session) becomes an explicit state record
threaded through the handlers.  External collaborators that are not part of
the supplied sources (camera projection, the raycast service, Emboss helpers,
GLCanvas3D commit) are modelled from the specification and are marked as such
in their doc comments.
-/

set_option maxHeartbeats 1000000

/-- Vector in R^3, the embedding of Eigen Vec3d. -/
structure V3 where
  x : ℝ
  y : ℝ
  z : ℝ

namespace V3

theorem ext_iff {a b : V3} : a = b ↔ a.x = b.x ∧ a.y = b.y ∧ a.z = b.z := by
  cases a; cases b; simp [mk.injEq]

def add (a b : V3) : V3 := ⟨a.x + b.x, a.y + b.y, a.z + b.z⟩

def sub (a b : V3) : V3 := ⟨a.x - b.x, a.y - b.y, a.z - b.z⟩

def neg (a : V3) : V3 := ⟨-a.x, -a.y, -a.z⟩

def smul (c : ℝ) (a : V3) : V3 := ⟨c * a.x, c * a.y, c * a.z⟩

/-- Dot product of two vectors. -/
def dot (a b : V3) : ℝ := a.x * b.x + a.y * b.y + a.z * b.z

/-- Cross product of two vectors. -/
def cross (a b : V3) : V3 :=
  ⟨a.y * b.z - a.z * b.y, a.z * b.x - a.x * b.z, a.x * b.y - a.y * b.x⟩

def zero : V3 := ⟨0, 0, 0⟩

instance : Add V3 := ⟨add⟩
instance : Sub V3 := ⟨sub⟩
instance : Neg V3 := ⟨neg⟩
instance : SMul ℝ V3 := ⟨smul⟩
instance : Zero V3 := ⟨zero⟩

/-- Euclidean norm of a vector. -/
noncomputable def norm (a : V3) : ℝ := Real.sqrt (dot a a)

/-- Eigen normalized(): the vector divided by its norm (division by a zero
norm yields the zero vector under Lean real-division semantics). -/
noncomputable def normalize (a : V3) : V3 := (1 / norm a) • a

theorem dot_nonneg (a : V3) : 0 ≤ dot a a := by
  simp only [dot]; nlinarith [sq_nonneg a.x, sq_nonneg a.y, sq_nonneg a.z]

theorem dot_self_eq_zero {a : V3} (h : dot a a = 0) : a = 0 := by
  obtain ⟨x, y, z⟩ := a
  simp only [dot] at h
  have hx : x = 0 := by nlinarith [sq_nonneg x, sq_nonneg y, sq_nonneg z]
  have hy : y = 0 := by nlinarith [sq_nonneg x, sq_nonneg y, sq_nonneg z]
  have hz : z = 0 := by nlinarith [sq_nonneg x, sq_nonneg y, sq_nonneg z]
  simp only [hx, hy, hz]; rfl

theorem dot_smul_left (c : ℝ) (a b : V3) : dot (c • a) b = c * dot a b := by
  show dot (smul c a) b = c * dot a b
  simp only [dot, smul]; ring

theorem smul_zero_vec (c : ℝ) : c • (0 : V3) = 0 := by
  show smul c zero = zero
  simp [smul, zero]

end V3

/-- Column-major 3x3 matrix (three column vectors), the embedding of Eigen
Matrix3d; c0, c1, c2 are the columns as read with the Eigen col accessor. -/
structure M3 where
  c0 : V3
  c1 : V3
  c2 : V3

namespace M3

/-- Matrix-vector multiplication: the linear combination of the columns. -/
def mulVec (m : M3) (v : V3) : V3 := v.x • m.c0 + v.y • m.c1 + v.z • m.c2

def mul (a b : M3) : M3 := ⟨mulVec a b.c0, mulVec a b.c1, mulVec a b.c2⟩

def add (a b : M3) : M3 := ⟨a.c0 + b.c0, a.c1 + b.c1, a.c2 + b.c2⟩

def smul (c : ℝ) (a : M3) : M3 := ⟨c • a.c0, c • a.c1, c • a.c2⟩

/-- Identity matrix. -/
def id3 : M3 := ⟨⟨1, 0, 0⟩, ⟨0, 1, 0⟩, ⟨0, 0, 1⟩⟩

instance : Mul M3 := ⟨mul⟩
instance : Add M3 := ⟨add⟩
instance : SMul ℝ M3 := ⟨smul⟩
instance : One M3 := ⟨id3⟩

/-- Determinant by cofactor expansion along the first column. -/
def det (m : M3) : ℝ :=
    m.c0.x * (m.c1.y * m.c2.z - m.c2.y * m.c1.z)
  - m.c1.x * (m.c0.y * m.c2.z - m.c2.y * m.c0.z)
  + m.c2.x * (m.c0.y * m.c1.z - m.c1.y * m.c0.z)

/-- Matrix inverse by the adjugate formula, the embedding of the Eigen
inverse of a 3x3 matrix (a singular matrix yields junk, as division by zero
gives zeros; such inputs are never reached by the claims). -/
noncomputable def inv (m : M3) : M3 :=
  let d := det m
  ⟨⟨(m.c1.y * m.c2.z - m.c2.y * m.c1.z) / d,
    -(m.c0.y * m.c2.z - m.c2.y * m.c0.z) / d,
    (m.c0.y * m.c1.z - m.c1.y * m.c0.z) / d⟩,
   ⟨-(m.c1.x * m.c2.z - m.c2.x * m.c1.z) / d,
    (m.c0.x * m.c2.z - m.c2.x * m.c0.z) / d,
    -(m.c0.x * m.c1.z - m.c1.x * m.c0.z) / d⟩,
   ⟨(m.c1.x * m.c2.y - m.c2.x * m.c1.y) / d,
    -(m.c0.x * m.c2.y - m.c2.x * m.c0.y) / d,
    (m.c0.x * m.c1.y - m.c1.x * m.c0.y) / d⟩⟩

/-- Cross-product matrix: mulVec (crossMat a) v equals cross a v. -/
def crossMat (a : V3) : M3 := ⟨⟨0, a.z, -a.y⟩, ⟨-a.z, 0, a.x⟩, ⟨a.y, -a.x, 0⟩⟩

/-- Outer product a b^T (column j is b_j times a). -/
def outer (a b : V3) : M3 := ⟨b.x • a, b.y • a, b.z • a⟩

end M3

/-- Affine transform (3x3 linear part plus translation), the embedding of
Eigen Transform3d; matrix entry (0,0) read by the drag-step guard is
linear.c0.x. -/
structure Tr where
  linear : M3
  trans : V3

namespace Tr

/-- Application of an affine transform to a point. -/
def apply (t : Tr) (v : V3) : V3 := t.linear.mulVec v + t.trans

/-- Composition by matrix multiplication: (comp a b) x = a (b x). -/
def comp (a b : Tr) : Tr := ⟨a.linear * b.linear, a.linear.mulVec b.trans + a.trans⟩

/-- Identity transform. -/
def idT : Tr := ⟨M3.id3, ⟨0, 0, 0⟩⟩

/-- Affine inverse: inverse linear part and the matching translation. -/
noncomputable def inv (t : Tr) : Tr :=
  ⟨t.linear.inv, -(t.linear.inv.mulVec t.trans)⟩

end Tr

/-- Pure rotation as an affine transform with zero translation (the embedding
of an Eigen AngleAxis or quaternion used in a Transform3d product). -/
def rotTr (m : M3) : Tr := ⟨m, ⟨0, 0, 0⟩⟩

/-- Action of a rotation (quaternion) on an affine transform from the left,
the embedding of an Eigen product rotation * transform. -/
def rotApply (r : M3) (t : Tr) : Tr := ⟨r * t.linear, r.mulVec t.trans⟩

/-- Pure translation as an affine transform. -/
def translT (v : V3) : Tr := ⟨M3.id3, v⟩

/-- Translation by d along the z axis. -/
def translZ (d : ℝ) : Tr := ⟨M3.id3, ⟨0, 0, d⟩⟩

/-- Rodrigues rotation matrix for angle theta about the unit axis a, the
embedding of the Eigen AngleAxis-to-matrix conversion. -/
noncomputable def angleAxisMat (theta : ℝ) (a : V3) : M3 :=
  (Real.cos theta) • M3.id3 + (Real.sin theta) • M3.crossMat a
    + (1 - Real.cos theta) • M3.outer a a

/-- Modelled from the spec: the Eigen quaternion FromTwoVectors used by the
drag solve (rotation_aligning in the spec); the Eigen implementation is not
part of the supplied sources.  It is the minimal rotation mapping direction a
onto direction b; the near-antiparallel degeneracy is handled by a 180 degree
rotation about a perpendicular axis instead of the ill-defined cross product. -/
noncomputable def rotation_from_to (a b : V3) : M3 :=
  let u := V3.normalize a
  let v := V3.normalize b
  let c := V3.dot u v
  if 1 + c < (1e-8 : ℝ) then
    let t : V3 := if |u.x| < (9e-1 : ℝ) then ⟨1, 0, 0⟩ else ⟨0, 1, 0⟩
    angleAxisMat Real.pi (V3.normalize (V3.cross u t))
  else
    let w := V3.cross u v
    M3.id3 + M3.crossMat w + (1 / (1 + c)) • (M3.crossMat w * M3.crossMat w)

/-! ## Data model: scene, model and session state (SurfaceDrag.hpp and the
GUI collaborators it references). -/

/-- Two-dimensional screen point or offset (Eigen Vec2d). -/
def V2 : Type := ℝ × ℝ

def v2add (a b : V2) : V2 := (a.1 + b.1, a.2 + b.2)

def v2sub (a b : V2) : V2 := (a.1 - b.1, a.2 - b.2)

/-- Cast of an integer screen coordinate pair to Vec2d. -/
def castV2 (p : ℤ × ℤ) : V2 := ((p.1 : ℝ), (p.2 : ℝ))

/-- Embedding of EmbossShape as far as SurfaceDrag.cpp reads it: the optional
baked legacy correction fix_3mf_tr and the projection use_surface flag. -/
structure EmbossShape where
  fix_3mf_tr : Option Tr
  projection_use_surface : Bool

/-- Embedding of ModelVolume as far as SurfaceDrag.cpp reads it. -/
structure ModelVolume where
  vid : ℕ
  matrix : Tr
  emboss_shape : Option EmbossShape

/-- Embedding of ModelInstance: the instance placement matrix. -/
structure ModelInstance where
  matrix : Tr

/-- Embedding of ModelObject: its volumes and instances. -/
structure ModelObject where
  volumes : List ModelVolume
  instances : List ModelInstance

/-- Modelled from the spec: ModelVolume is_the_only_one_part (libslic3r,
not among the supplied sources) — true when the volume is the sole part of
its owning object, so the object has nothing for the volume to be relative
to and cannot be surface-dragged. -/
def is_the_only_one_part (object : ModelObject) : Bool :=
  object.volumes.length == 1

/-- Embedding of GLVolume as far as SurfaceDrag.cpp reads it: the identity
indices, the mutable local (volume) transform, the instance transform used to
build the world matrix, the SLA z shift and the bounding-box depth. -/
structure GLVolume where
  object_idx : ℤ
  volume_idx : ℤ
  instance_idx : ℤ
  instance_tr : Tr
  volume_tr : Tr
  sla_shift_z : ℝ
  bounding_box_size_z : ℝ

/-- Modelled from the spec: GLVolume world_matrix (GLVolume.hpp, not among
the supplied sources) — instance transform times volume transform, with the
SLA shift applied as a world translation along z. -/
def GLVolume.world_matrix (v : GLVolume) : Tr :=
  Tr.comp (translZ v.sla_shift_z) (Tr.comp v.instance_tr v.volume_tr)

/-- Raycast exclusion filter: the set of volume ids allowed to be hit
(RaycastManager AllowVolumes). -/
def Cond : Type := List ℕ

/-- Modelled from the spec: create_condition — builds the exclusion filter
allowing raycasts only against the sibling volumes of the dragged volume,
never the dragged volume itself. -/
def create_condition (volumes : List ModelVolume) (volume_id : ℕ) : Cond :=
  (volumes.filter (fun v => v.vid != volume_id)).map (fun v => v.vid)

/-- Embedding of RaycastManager Hit: position and normal in the hit mesh's
space, the squared distance and the transform key resolving it to world. -/
structure Hit where
  position : V3
  normal : V3
  squared_distance : ℝ
  tr_key : ℕ

/-- Modelled from the spec: the Mesh Raycast Service (RaycastManager, not
among the supplied sources).  Queries are function fields; actualize only
records which exclusion filter the spatial structures were rebuilt for,
which is all the drag controller observes of it. -/
structure RaycastManager where
  closest_hit : V3 → V3 → Cond → Option Hit
  get_transformation : ℕ → Tr
  actualized : Option Cond

/-- Modelled from the spec: RaycastManager actualize — rebuilds the spatial
structures for the given instance under the given filter; the meshes argument
of the source is part of the rebuild and is not otherwise observed. -/
def RaycastManager.actualize (rc : RaycastManager) (_instance : ModelInstance)
    (cond : Cond) : RaycastManager :=
  { rc with actualized := some cond }

/-- Modelled from the spec: the camera — a world-to-screen projection
returning integer pixel coordinates (CameraUtils project), a screen-to-world
ray unprojection, and the forward direction. -/
structure Camera where
  project : V3 → ℤ × ℤ
  ray : V2 → V3 × V3
  dir_forward : V3

/-- Modelled from the spec: ray_from_camera (CameraUtils, not among the
supplied sources) — unprojects the screen point into a world ray and asks the
raycast service for the closest hit under the exclusion filter. -/
def ray_from_camera (rc : RaycastManager) (screen_pos : V2) (camera : Camera)
    (cond : Cond) : Option Hit :=
  let r := camera.ray screen_pos
  rc.closest_hit r.1 r.2 cond

/-- Embedding of the SurfaceDrag session record (SurfaceDrag.hpp), with the
fields in the order of the aggregate initializer at line 494 of the source. -/
structure SurfaceDrag where
  mouse_offset : V2
  world : Tr
  instance_inv : Tr
  gl_volume : GLVolume
  condition : Cond
  start_angle : Option ℝ
  start_distance : Option ℝ
  exist_hit : Bool
  mouse_offset_without_sla_shift : V2

/-- Embedding of the wxMouseEvent predicates read by the handler. -/
structure MouseEvent where
  mx : ℤ
  my : ℤ
  is_dragging : Bool
  is_moving : Bool
  left_down : Bool
  left_up : Bool

/-- Extraction of the mouse position from the event (mouse_position). -/
def mouse_position (e : MouseEvent) : V2 := castV2 (e.mx, e.my)

/-- The canvas and model state the drag controller reads and writes: the
scene volumes, the persisted model objects, selection and hover, the
picking/moving flags, the redraw flag, the drag session, and the log of
transform commits performed through GLCanvas3D do_move. -/
structure CanvasState where
  volumes : List GLVolume
  objects : List ModelObject
  selected : Option ℕ
  hover_idx : ℤ
  moving_enabled : Bool
  picking_enabled : Bool
  dirty : Bool
  surface_drag : Option SurfaceDrag
  move_commits : List String

/-- Modelled from the spec: get_selected_gl_volume — the single selected
scene volume together with its index, none when the selection is empty. -/
def get_selected_gl_volume (st : CanvasState) : Option (ℕ × GLVolume) :=
  st.selected.bind fun i => (st.volumes.get? i).map fun v => (i, v)

/-- Modelled from the spec: get_model_object — resolves a scene volume's
owning model object by its object index. -/
def get_model_object (gl : GLVolume) (objects : List ModelObject) : Option ModelObject :=
  if gl.object_idx < 0 then none else objects.get? gl.object_idx.toNat

/-- Modelled from the spec: get_model_instance — resolves the instance of
the object that the scene volume visualizes. -/
def get_model_instance (gl : GLVolume) (object : ModelObject) : Option ModelInstance :=
  if gl.instance_idx < 0 then none else object.instances.get? gl.instance_idx.toNat

/-- Modelled from the spec: get_model_volume on an already resolved object. -/
def get_model_volume_of (gl : GLVolume) (object : ModelObject) : Option ModelVolume :=
  if gl.volume_idx < 0 then none else object.volumes.get? gl.volume_idx.toNat

/-- Modelled from the spec: get_model_volume looking the object up first. -/
def get_model_volume (gl : GLVolume) (objects : List ModelObject) : Option ModelVolume :=
  (get_model_object gl objects).bind fun o => get_model_volume_of gl o

/-- Modelled from the spec: GLCanvas3D do_move (not among the supplied
sources) — commits the current scene-volume transforms into the persisted
model volumes as one undo-able edit; the commit is recorded on the log. -/
def do_move (name : String) (st : CanvasState) : CanvasState :=
  { st with
    objects := st.objects.mapIdx fun oi obj =>
      { obj with
        volumes := obj.volumes.mapIdx fun vi mv =>
          match st.volumes.find? (fun g => g.object_idx = (oi : ℤ) ∧ g.volume_idx = (vi : ℤ)) with
          | some g => { mv with matrix := g.volume_tr }
          | none => mv },
    move_commits := st.move_commits ++ [name] }

/-! ## Embedded functions of SurfaceDrag.cpp and their modelled externals. -/

/-- Slic3r EPSILON constant (libslic3r), the default tolerance of is_approx. -/
def EPSILON : ℝ := 1e-4

/-- Modelled from the spec: Slic3r is_approx on scalars (libslic3r, not among
the supplied sources) — absolute difference below the tolerance. -/
def is_approx (value test_value : ℝ) : Prop := |value - test_value| < EPSILON

/-- Modelled from the spec: Slic3r is_approx on vectors — componentwise
closeness within the default tolerance. -/
def is_approx_v3 (a b : V3) : Prop :=
  is_approx a.x b.x ∧ is_approx a.y b.y ∧ is_approx a.z b.z

/-- Lower bound of surface_distance_sq (SurfaceDrag.cpp line 21): squared
distances below it are treated as at-surface. -/
def surface_distance_sq_min : ℝ := 1e-4

/-- Upper bound of surface_distance_sq (SurfaceDrag.cpp line 21). -/
def surface_distance_sq_max : ℝ := 10

/-- Modelled from the spec: get_z_base (GUI helper, not among the supplied
sources) — the unit forward (z) axis of a world transform. -/
noncomputable def get_z_base (t : Tr) : V3 := V3.normalize t.linear.c2

/-- Skew removal of the third axis (SurfaceDrag.cpp lines 526-529): the third
column is replaced by the projection of the old third axis onto the normal of
the plane spanned by the first two columns. -/
noncomputable def orthogonalize_third_axis (m : M3) : M3 :=
  let old_z := m.c2
  let new_z := V3.cross m.c0 m.c1
  { m with c2 := (V3.dot old_z new_z / V3.dot new_z new_z) • new_z }

/-- Modelled from the spec: Emboss suggest_up (libslic3r Emboss, not among
the supplied sources) — a twist-constrained up vector derived from the new
third axis: the projection of the global up direction onto the plane
perpendicular to it (the clamp by the limit angle does not affect any claim
and is omitted). -/
noncomputable def suggest_up (z_world : V3) (_up_limit : ℝ) : V3 :=
  let world_up : V3 := ⟨0, 0, 1⟩
  V3.normalize (world_up - (V3.dot world_up z_world) • z_world)

/-- Modelled from the spec: Emboss calc_up — the current twist angle of a
world transform, read as the angle between its second axis and the suggested
up vector of its third axis. -/
noncomputable def calc_up (w : Tr) (up_limit : ℝ) : ℝ :=
  Real.arccos (V3.dot (V3.normalize w.linear.c1)
    (suggest_up (V3.normalize w.linear.c2) up_limit))

/-- Modelled from the spec: Emboss apply_transformation — re-applies the
preserved twist angle (a rotation about the local z axis) and the preserved
surface distance (a translation along the local z axis) onto a volume
transform, each only when present. -/
noncomputable def apply_transformation (angle distance : Option ℝ) (tr : Tr) : Tr :=
  let tr1 := match angle with
    | some a => Tr.comp tr (rotTr (angleAxisMat a ⟨0, 0, 1⟩))
    | none => tr
  match distance with
  | some d => Tr.comp tr1 (translZ d)
  | none => tr1

/-- Embedding of world_matrix_fixed (SurfaceDrag.cpp lines 231-248): the
scene volume's world matrix with the baked legacy 3mf correction un-applied
when the model volume carries one. -/
noncomputable def world_matrix_fixed (gl_volume : GLVolume)
    (objects : List ModelObject) : Tr :=
  let res := gl_volume.world_matrix
  match get_model_volume gl_volume objects with
  | none => res
  | some mv =>
    match mv.emboss_shape with
    | none => res
    | some es =>
      match es.fix_3mf_tr with
      | none => res
      | some fix => Tr.comp res fix.inv

/-- Embedding of world_matrix_fixed on a selection (SurfaceDrag.cpp lines
250-258): identity when nothing is selected. -/
noncomputable def world_matrix_fixed_sel (st : CanvasState) : Tr :=
  match get_selected_gl_volume st with
  | none => Tr.idT
  | some (_, gl) => world_matrix_fixed gl st.objects

section
open Classical

/-- Embedding of the condition-taking calc_distance overload
(SurfaceDrag.cpp lines 197-229): the signed distance from the volume anchor
to the closest hit along the forward ray, suppressed below the fixed minimal
squared distance and above the depth-dependent maximal squared distance. -/
noncomputable def calc_distance (gl_volume : GLVolume) (raycaster : RaycastManager)
    (condition : Cond) : Option ℝ :=
  let w := gl_volume.world_matrix
  let p := w.trans
  let dir := -(get_z_base w)
  match raycaster.closest_hit p dir condition with
  | none => none
  | some hit =>
    let tr := raycaster.get_transformation hit.tr_key
    let hit_world := tr.apply hit.position
    let p_to_hit := hit_world - p
    let distance_sq := V3.dot p_to_hit p_to_hit
    if distance_sq < surface_distance_sq_min then none
    else
      let max_squared_distance :=
        max ((2 * gl_volume.bounding_box_size_z) ^ 2) surface_distance_sq_max
      if distance_sq > max_squared_distance then none
      else some ((if V3.dot p_to_hit dir > 0 then (1 : ℝ) else -1) * Real.sqrt distance_sq)

end

/-- Helper of face_selected_volume_to_camera (SurfaceDrag.cpp lines 329-330):
writes the resulting transform to the selected scene volume and to its
persisted model volume. -/
def set_selected_transform (st : CanvasState) (i : ℕ) (gl : GLVolume)
    (res : Tr) : CanvasState :=
  { st with
    volumes := st.volumes.mapIdx fun j v =>
      if j = i then { v with volume_tr := res } else v,
    objects := st.objects.mapIdx fun oi obj =>
      if (oi : ℤ) = gl.object_idx then
        { obj with
          volumes := obj.volumes.mapIdx fun vi mv =>
            if (vi : ℤ) = gl.volume_idx then { mv with matrix := res } else mv }
      else obj }

section
open Classical

/-- Rotation selection of face_selected_volume_to_camera (SurfaceDrag.cpp
lines 311-323): when the camera direction expressed in volume space is
near-opposite to the emboss direction, the source takes a fixed rotation
about the y axis with the angle it passes, namely M_PI_2 (the comment at
line 315 says rotate 180 DEG by y, but M_PI_2 is a quarter turn); otherwise
the shortest-arc rotation from the emboss direction to the camera
direction. -/
noncomputable def face_vol_rot (cam_dir_tr : V3) : Tr :=
  let emboss_dir : V3 := ⟨0, 0, -1⟩
  if is_approx_v3 cam_dir_tr (-emboss_dir) then
    rotTr (angleAxisMat (Real.pi / 2) ⟨0, 1, 0⟩)
  else
    let axe := V3.normalize (V3.cross emboss_dir cam_dir_tr)
    let angle := Real.arccos (V3.dot emboss_dir cam_dir_tr)
    rotTr (angleAxisMat angle axe)

/-- Embedding of face_selected_volume_to_camera (SurfaceDrag.cpp lines
290-332): rotates the selected volume so its emboss (forward) axis points at
the camera; a no-op returning false when the selection is empty or the
camera direction already coincides with the emboss direction; the
near-opposite case takes the fixed rotation about the y axis with the angle
the source passes, namely M_PI_2 (its comment says 180 degrees). -/
noncomputable def face_selected_volume_to_camera (camera : Camera)
    (st : CanvasState) : Bool × CanvasState :=
  let cam_dir := camera.dir_forward
  match get_selected_gl_volume st with
  | none => (false, st)
  | some (i, gl_volume) =>
    let to_world := world_matrix_fixed_sel st
    let cam_dir_tr := V3.normalize (to_world.inv.linear.mulVec cam_dir)
    let emboss_dir : V3 := ⟨0, 0, -1⟩
    if is_approx_v3 cam_dir_tr emboss_dir then (false, st)
    else
      let vol_tr := gl_volume.volume_tr
      let vol_rot : Tr := face_vol_rot cam_dir_tr
      let offset := vol_tr.apply ⟨0, 0, 0⟩
      let offset_inv := vol_rot.inv.apply offset
      let res := Tr.comp (Tr.comp (Tr.comp vol_tr (translT (-offset))) vol_rot)
        (translT offset_inv)
      (true, set_selected_transform st i gl_volume res)

/-- Failure of an unchecked optional dereference in the embedded code; the
only unguarded access in the drag controller is the emboss-shape read at
SurfaceDrag.cpp line 492. -/
inductive DerefErr
  | embossShapeDeref
deriving DecidableEq

/-- Embedding of start_dragging (SurfaceDrag.cpp lines 411-502): the
Idle-to-Dragging transition.  Every precondition failure returns false with
the state untouched; on success the raycast service is actualized, the
session record is built and picking and moving are disabled.  The read of
the optional emboss shape at line 492 is unguarded in the source and is
embedded as an explicit dereference error when the optional is absent. -/
noncomputable def start_dragging (mouse_pos : V2) (camera : Camera)
    (st : CanvasState) (rc : RaycastManager) (up_limit : Option ℝ) :
    Except DerefErr (Bool × CanvasState × RaycastManager) :=
  match get_selected_gl_volume st with
  | none => .ok (false, st, rc)
  | some (sel_idx, gl_volume) =>
    if st.hover_idx < 0 then .ok (false, st, rc)
    else if st.hover_idx.toNat ≥ st.volumes.length ∨ st.hover_idx.toNat ≠ sel_idx then
      .ok (false, st, rc)
    else
      match get_model_object gl_volume st.objects with
      | none => .ok (false, st, rc)
      | some object =>
        match get_model_instance gl_volume object, get_model_volume_of gl_volume object with
        | some inst, some volume =>
          if is_the_only_one_part object then .ok (false, st, rc)
          else
            let condition := create_condition object.volumes volume.vid
            let rc2 := rc.actualize inst condition
            let to_world := world_matrix_fixed gl_volume st.objects
            let volume_center := to_world.trans
            let coor := camera.project volume_center
            let mouse_offset := v2sub (castV2 coor) mouse_pos
            let mouse_offset_without_sla_shift :=
              if ¬ is_approx gl_volume.sla_shift_z 0 then
                let base := Tr.comp inst.matrix volume.matrix
                let to_world_without_sla_move :=
                  match volume.emboss_shape with
                  | some es =>
                    match es.fix_3mf_tr with
                    | some fix => Tr.comp base fix
                    | none => base
                  | none => base
                v2sub (castV2 (camera.project to_world_without_sla_move.trans)) mouse_pos
              else mouse_offset
            let volume_tr0 := gl_volume.volume_tr
            let volume_tr :=
              match volume.emboss_shape with
              | some es =>
                match es.fix_3mf_tr with
                | some fix => Tr.comp volume_tr0 fix.inv
                | none => volume_tr0
              | none => volume_tr0
            let instance_tr := inst.matrix
            let instance_tr_inv := instance_tr.inv
            let world_tr := Tr.comp instance_tr volume_tr
            let start_angle := up_limit.map fun ul => calc_up world_tr ul
            match volume.emboss_shape with
            | none => .error .embossShapeDeref
            | some es =>
              let start_distance :=
                if es.projection_use_surface then none
                else calc_distance gl_volume rc2 condition
              let sd : SurfaceDrag :=
                { mouse_offset := mouse_offset
                  world := world_tr
                  instance_inv := instance_tr_inv
                  gl_volume := gl_volume
                  condition := condition
                  start_angle := start_angle
                  start_distance := start_distance
                  exist_hit := true
                  mouse_offset_without_sla_shift := mouse_offset_without_sla_shift }
              .ok (true,
                { st with surface_drag := some sd, moving_enabled := false,
                          picking_enabled := false },
                rc2)
        | _, _ => .ok (false, st, rc)

/-- Embedding of dragging (SurfaceDrag.cpp lines 504-583): one pointer-move
step of an active session.  A missing hit only records the no-hit flag and
requests a redraw; a hit rebuilds the frame (the skew reset writes through
the Eigen block alias back into the session world), guards entry (0,0) of
the new matrix against NaN by a self-comparison, re-applies the legacy fix
and the preserved angle and distance, and broadcasts the new local transform
to every scene volume with the dragged volume's identity. -/
noncomputable def dragging (mouse_pos : V2) (camera : Camera) (sd : SurfaceDrag)
    (st : CanvasState) (rc : RaycastManager) (up_limit : Option ℝ) :
    Bool × SurfaceDrag × CanvasState :=
  let offseted_mouse := v2add mouse_pos sd.mouse_offset_without_sla_shift
  match ray_from_camera rc offseted_mouse camera sd.condition with
  | none => (true, { sd with exist_hit := false }, { st with dirty := true })
  | some hit =>
    let sd1 := { sd with exist_hit := true }
    let world_linear := orthogonalize_third_axis sd1.world.linear
    let sd2 := { sd1 with world := { sd1.world with linear := world_linear } }
    let text_z_world := world_linear.c2
    let z_rotation := rotation_from_to text_z_world hit.normal
    let world_new := rotApply z_rotation sd2.world
    let world_new2 :=
      match up_limit with
      | some limit =>
        let z_world := V3.normalize world_new.linear.c2
        let wanted_up := suggest_up z_world limit
        let y_world := world_new.linear.c1
        let y_rotation := rotation_from_to y_world wanted_up
        rotApply y_rotation world_new
      | none => world_new
    let volume_new : Tr :=
      { linear := sd2.instance_inv.linear * world_new2.linear
        trans := sd2.instance_inv.apply hit.position }
    if volume_new.linear.c0.x ≠ volume_new.linear.c0.x then (true, sd2, st)
    else
      let volume_new2 :=
        match get_model_volume sd2.gl_volume st.objects with
        | some volume =>
          match volume.emboss_shape with
          | some es =>
            let vn :=
              match es.fix_3mf_tr with
              | some fix => Tr.comp volume_new fix
              | none => volume_new
            apply_transformation sd2.start_angle sd2.start_distance vn
          | none => volume_new
        | none => volume_new
      let vols := st.volumes.map fun v =>
        if v.object_idx = sd2.gl_volume.object_idx ∧ v.volume_idx = sd2.gl_volume.volume_idx
        then { v with volume_tr := volume_new2 } else v
      (true, sd2, { st with volumes := vols, dirty := true })

/-- Embedding of on_mouse_surface_drag (SurfaceDrag.cpp lines 78-115): the
pointer-event dispatcher of the drag controller.  While a session exists, any
event that is not a dragging gesture terminates the drag: the transform is
written into the model through do_move, moving and picking are re-enabled,
the session is destroyed and the handler reports whether the event was a
left-button release.  Otherwise pure moves are ignored, a left press starts
a drag, and a dragging gesture with a live session performs one step. -/
noncomputable def on_mouse_surface_drag (e : MouseEvent) (camera : Camera)
    (st : CanvasState) (rc : RaycastManager) (up_limit : Option ℝ) :
    Except DerefErr (Bool × CanvasState × RaycastManager) :=
  if st.surface_drag.isSome && !e.is_dragging then
    let st1 := do_move "Move over surface" st
    let st2 := { st1 with moving_enabled := true, picking_enabled := true,
                          surface_drag := none }
    .ok (e.left_up, st2, rc)
  else if e.is_moving then .ok (false, st, rc)
  else if e.left_down then
    start_dragging (mouse_position e) camera st rc up_limit
  else
    match st.surface_drag with
    | none => .ok (false, st, rc)
    | some sd =>
      if e.is_dragging then
        let r := dragging (mouse_position e) camera sd st rc up_limit
        .ok (r.1, { r.2.2 with surface_drag := some r.2.1 }, rc)
      else .ok (false, st, rc)

end

/-! ## Unfolding lemmas for the vector and matrix operations. -/

theorem v3_add_def (a b : V3) : a + b = ⟨a.x + b.x, a.y + b.y, a.z + b.z⟩ := rfl

theorem v3_sub_def (a b : V3) : a - b = ⟨a.x - b.x, a.y - b.y, a.z - b.z⟩ := rfl

theorem v3_neg_def (a : V3) : -a = ⟨-a.x, -a.y, -a.z⟩ := rfl

theorem v3_smul_def (c : ℝ) (a : V3) : c • a = ⟨c * a.x, c * a.y, c * a.z⟩ := rfl

theorem v3_zero_def : (0 : V3) = ⟨0, 0, 0⟩ := rfl

theorem m3_mul_def (a b : M3) : a * b = ⟨a.mulVec b.c0, a.mulVec b.c1, a.mulVec b.c2⟩ := rfl

theorem m3_add_def (a b : M3) : a + b = ⟨a.c0 + b.c0, a.c1 + b.c1, a.c2 + b.c2⟩ := rfl

theorem m3_smul_def (c : ℝ) (a : M3) : c • a = ⟨c • a.c0, c • a.c1, c • a.c2⟩ := rfl

/-! ## IEEE-like scalar model for the non-finite guard of the drag step.

The exact-real embedding of dragging above cannot produce a NaN, so the
guard of SurfaceDrag.cpp lines 554-557 is analysed over a scalar type with
the IEEE comparison semantics the source relies on: the guard is the
self-comparison volume_new.matrix()(0,0) != volume_new.matrix()(0,0), which
is true exactly for a NaN in that one entry. -/

/-- IEEE-style double for the guard analysis: a finite value, NaN, or an
infinity of either sign. -/
inductive FP
  | fin : ℚ → FP
  | nan : FP
  | inf : FP
  | ninf : FP
deriving DecidableEq

/-- IEEE equality: NaN compares unequal to everything, itself included;
infinities compare equal to themselves. -/
def FP.feq : FP → FP → Bool
  | .fin a, .fin b => a == b
  | .inf, .inf => true
  | .ninf, .ninf => true
  | _, _ => false

/-- Finiteness of an IEEE-like scalar. -/
def FP.isFinite : FP → Bool
  | .fin _ => true
  | _ => false

/-- A 3x3 linear part with IEEE-like entries, entry (0,0) being e00. -/
structure M3F where
  e00 : FP
  e01 : FP
  e02 : FP
  e10 : FP
  e11 : FP
  e12 : FP
  e20 : FP
  e21 : FP
  e22 : FP
deriving DecidableEq

/-- All nine entries are finite. -/
def M3F.allFinite (m : M3F) : Bool :=
  m.e00.isFinite && m.e01.isFinite && m.e02.isFinite &&
  m.e10.isFinite && m.e11.isFinite && m.e12.isFinite &&
  m.e20.isFinite && m.e21.isFinite && m.e22.isFinite

/-- Scene volume reduced to what the broadcast loop reads: the identity
indices and the stored local linear part. -/
structure GLVolF where
  object_idx : ℤ
  volume_idx : ℤ
  tr : M3F
deriving DecidableEq

/-- The non-finite guard of the drag step (SurfaceDrag.cpp lines 555-556):
the matrix is rejected when its entry (0,0) compares unequal to itself. -/
def nonfinite_guard_fires (m : M3F) : Bool := !(FP.feq m.e00 m.e00)

/-- The commit of one drag step over the IEEE-like scalar (SurfaceDrag.cpp
lines 554-579): the guard, then the broadcast of the new local transform to
every scene volume with the dragged identity.  The legacy-fix and
angle-and-distance re-application of lines 563-572 is the identity when the
dragged model volume carries no emboss shape, which is the case this
analysis instantiates, so it is omitted here. -/
def step_commit (volume_new : M3F) (obj vo : ℤ) (vols : List GLVolF) : List GLVolF :=
  if nonfinite_guard_fires volume_new then vols
  else vols.map fun g =>
    if g.object_idx = obj ∧ g.volume_idx = vo then { g with tr := volume_new } else g

/-! ## Concrete fixtures for counterexamples and witnesses. -/

/-- Identity-entry matrix over the IEEE-like scalar. -/
def m3f_id : M3F :=
  ⟨.fin 1, .fin 0, .fin 0, .fin 0, .fin 1, .fin 0, .fin 0, .fin 0, .fin 1⟩

/-- A matrix with a NaN at entry (0,1) and entry (0,0) finite: non-finite,
yet invisible to the guard. -/
def m3f_bad : M3F :=
  ⟨.fin 1, .nan, .fin 0, .fin 0, .fin 1, .fin 0, .fin 0, .fin 0, .fin 1⟩

/-- A scene volume with the dragged identity. -/
def gvf0 : GLVolF := ⟨0, 0, m3f_id⟩

/-- Camera fixture: everything projects to the origin pixel, every screen
point unprojects to a fixed downward ray, the camera looks along positive z. -/
noncomputable def camera0 : Camera :=
  { project := fun _ => (0, 0)
    ray := fun _ => (⟨0, 0, 5⟩, ⟨0, 0, -1⟩)
    dir_forward := ⟨0, 0, 1⟩ }

/-- Raycast service fixture that never reports a hit. -/
noncomputable def rcNone : RaycastManager :=
  { closest_hit := fun _ _ _ => none
    get_transformation := fun _ => Tr.idT
    actualized := none }

/-- A fixed hit two units below the anchor, with an upward normal. -/
noncomputable def hit0 : Hit :=
  { position := ⟨0, 0, -2⟩, normal := ⟨0, 0, 1⟩, squared_distance := 4, tr_key := 0 }

/-- Raycast service fixture that always reports hit0 under the identity
world transformation. -/
noncomputable def rcHit : RaycastManager :=
  { closest_hit := fun _ _ _ => some hit0
    get_transformation := fun _ => Tr.idT
    actualized := none }

/-- Scene volume fixture with identity transforms, no SLA shift and a
bounding-box depth of one. -/
noncomputable def glv0 : GLVolume :=
  { object_idx := 0, volume_idx := 0, instance_idx := 0
    instance_tr := Tr.idT, volume_tr := Tr.idT
    sla_shift_z := 0, bounding_box_size_z := 1 }

/-- Model instance fixture with the identity placement. -/
noncomputable def inst0 : ModelInstance := { matrix := Tr.idT }

/-- First model volume of the two-part object, without an emboss shape. -/
noncomputable def mvA : ModelVolume := { vid := 1, matrix := Tr.idT, emboss_shape := none }

/-- Second model volume of the two-part object. -/
noncomputable def mvB : ModelVolume := { vid := 2, matrix := Tr.idT, emboss_shape := none }

/-- A two-part model object: its volumes may be surface-dragged. -/
noncomputable def obj2 : ModelObject := { volumes := [mvA, mvB], instances := [inst0] }

/-- A single-part model object: its volume is the only part. -/
noncomputable def obj_sole : ModelObject := { volumes := [mvA], instances := [inst0] }

/-- Session fixture: identity frames, no preserved angle or distance. -/
noncomputable def sd0 : SurfaceDrag :=
  { mouse_offset := (0, 0), world := Tr.idT, instance_inv := Tr.idT
    gl_volume := glv0, condition := [], start_angle := none, start_distance := none
    exist_hit := true, mouse_offset_without_sla_shift := (0, 0) }

/-- Canvas fixture with a live drag session over the two-part object. -/
noncomputable def st_drag : CanvasState :=
  { volumes := [glv0], objects := [obj2], selected := some 0, hover_idx := 0
    moving_enabled := false, picking_enabled := false, dirty := false
    surface_drag := some sd0, move_commits := [] }

/-- Canvas fixture before any drag, over the single-part object. -/
noncomputable def st_sole : CanvasState :=
  { volumes := [glv0], objects := [obj_sole], selected := some 0, hover_idx := 0
    moving_enabled := true, picking_enabled := true, dirty := false
    surface_drag := none, move_commits := [] }

/-- Canvas fixture before any drag, over the two-part object. -/
noncomputable def st_idle : CanvasState :=
  { volumes := [glv0], objects := [obj2], selected := some 0, hover_idx := 0
    moving_enabled := true, picking_enabled := true, dirty := false
    surface_drag := none, move_commits := [] }

/-- Termination event fixture: not a dragging gesture and not a left-button
release (a right-button release or a fix-up after leaving the canvas). -/
def e_rightup : MouseEvent :=
  { mx := 0, my := 0, is_dragging := false, is_moving := false
    left_down := false, left_up := false }

/-- Termination event fixture: a left-button release. -/
def e_leftup : MouseEvent :=
  { mx := 0, my := 0, is_dragging := false, is_moving := false
    left_down := false, left_up := true }

/-- Pointer-move event fixture during a drag gesture. -/
def e_dragmove : MouseEvent :=
  { mx := 3, my := 4, is_dragging := true, is_moving := false
    left_down := false, left_up := false }

/-! ## Claim theorems. -/

/-- C8: the skew-removal step of the drag solve (replacing the third column
with the component of the original third axis perpendicular to the plane of
the first two) is idempotent — applying it twice equals applying it once —
and it leaves the first two columns exactly unchanged. -/
theorem C8_orthogonalize_idempotent (m : M3) :
    orthogonalize_third_axis (orthogonalize_third_axis m) = orthogonalize_third_axis m
    ∧ (orthogonalize_third_axis m).c0 = m.c0
    ∧ (orthogonalize_third_axis m).c1 = m.c1 := by
  refine ⟨?_, rfl, rfl⟩
  unfold orthogonalize_third_axis
  by_cases h : V3.dot (V3.cross m.c0 m.c1) (V3.cross m.c0 m.c1) = 0
  · have hn0 : V3.cross m.c0 m.c1 = 0 := V3.dot_self_eq_zero h
    simp only [hn0, V3.smul_zero_vec]
  · simp only [M3.mk.injEq, true_and]
    rw [V3.dot_smul_left]
    rw [mul_div_assoc, div_self h, mul_one]

/-- C4 counterexample: a computed volume-local matrix with a NaN at entry
(0,1) is non-finite, yet the drag-step commit is not discarded — the
transform of a matching scene volume is written. -/
theorem C4_counterexample :
    M3F.allFinite m3f_bad = false ∧ step_commit m3f_bad 0 0 [gvf0] ≠ [gvf0] := by
  decide

/-- C4 as amended: the drag step is discarded exactly when entry (0,0) of
the computed volume-local matrix is NaN (the self-comparison guard examines
that single entry); otherwise the transform is broadcast to the matching
scene volumes. -/
theorem C4_nan_guard_entry00 (m : M3F) (o vo : ℤ) (vols : List GLVolF) :
    (m.e00 = FP.nan → step_commit m o vo vols = vols)
    ∧ (m.e00 ≠ FP.nan → step_commit m o vo vols =
        vols.map fun g =>
          if g.object_idx = o ∧ g.volume_idx = vo then { g with tr := m } else g) := by
  constructor
  · intro h
    unfold step_commit nonfinite_guard_fires
    rw [h]
    rfl
  · intro h
    unfold step_commit nonfinite_guard_fires
    have hfeq : FP.feq m.e00 m.e00 = true := by
      cases he : m.e00 with
      | fin a => simp [FP.feq]
      | nan => exact absurd he h
      | inf => rfl
      | ninf => rfl
    rw [hfeq]
    rfl

/-- Witness for the amended C4 at a concrete non-NaN-at-(0,0) matrix. -/
theorem C4_nan_guard_entry00_witness :
    step_commit m3f_bad 0 0 [gvf0] = [{ gvf0 with tr := m3f_bad }] := by
  have h := (C4_nan_guard_entry00 m3f_bad 0 0 [gvf0]).2 (by decide)
  rw [h]
  decide

/-- C1 counterexample: a drag termination that is not a left-button release
(here a right-button release) still commits the transform into the persisted
model — the do_move commit log grows — while the handler returns false. -/
theorem C1_counterexample :
    (on_mouse_surface_drag e_rightup camera0 st_drag rcNone none).map
        (fun r => (r.1, r.2.1.move_commits)) = .ok (false, ["Move over surface"])
    ∧ st_drag.move_commits = [] :=
  ⟨rfl, rfl⟩

/-- C1 as amended: every drag termination (a session exists and the event is
not a dragging gesture) commits the transform into the persisted model,
re-enables moving and picking and destroys the session; the handler returns
true exactly when the terminating event is a left-button release. -/
theorem C1_terminate_commits (e : MouseEvent) (camera : Camera) (st : CanvasState)
    (rc : RaycastManager) (up_limit : Option ℝ)
    (hsd : st.surface_drag.isSome = true) (hdrag : e.is_dragging = false) :
    on_mouse_surface_drag e camera st rc up_limit =
      .ok (e.left_up,
        { do_move "Move over surface" st with
          moving_enabled := true, picking_enabled := true, surface_drag := none },
        rc) := by
  unfold on_mouse_surface_drag
  simp only [hsd, hdrag, Bool.not_false, Bool.and_true, if_pos]

/-- Witness for the amended C1: a left-button release terminates the drag,
commits, and is reported as a legitimate release. -/
theorem C1_terminate_commits_witness :
    on_mouse_surface_drag e_leftup camera0 st_drag rcNone none =
      .ok (true,
        { do_move "Move over surface" st_drag with
          moving_enabled := true, picking_enabled := true, surface_drag := none },
        rcNone) :=
  C1_terminate_commits e_leftup camera0 st_drag rcNone none rfl rfl

/-- C2: a pointer-move step of an active drag whose unprojected ray finds no
intersection leaves every scene volume's transform unchanged, clears the
session's exists-hit flag, requests a redraw, keeps the session alive, and
reports the event as consumed. -/
theorem C2_no_hit_keeps_state (e : MouseEvent) (camera : Camera) (st : CanvasState)
    (rc : RaycastManager) (up_limit : Option ℝ) (sd : SurfaceDrag)
    (hsd : st.surface_drag = some sd)
    (hdrag : e.is_dragging = true) (hmov : e.is_moving = false)
    (hld : e.left_down = false)
    (hray : ray_from_camera rc
        (v2add (mouse_position e) sd.mouse_offset_without_sla_shift)
        camera sd.condition = none) :
    on_mouse_surface_drag e camera st rc up_limit =
      .ok (true,
        { st with surface_drag := some { sd with exist_hit := false }, dirty := true },
        rc) := by
  unfold on_mouse_surface_drag dragging
  simp only [hsd, hdrag, hmov, hld, hray, Option.isSome_some, Bool.not_true,
    Bool.and_false, Bool.false_eq_true, if_false, Bool.true_eq_false, if_true]

/-- Witness for C2 at a concrete dragging state whose raycast never hits. -/
theorem C2_no_hit_keeps_state_witness :
    on_mouse_surface_drag e_dragmove camera0 st_drag rcNone none =
      .ok (true,
        { st_drag with
          surface_drag := some { sd0 with exist_hit := false }, dirty := true },
        rcNone) :=
  C2_no_hit_keeps_state e_dragmove camera0 st_drag rcNone none sd0 rfl rfl rfl rfl rfl

/-- C3: a pointer-press on a selected volume that is the sole part of its
object declines to start a drag — the operation returns false and neither
the canvas state nor the raycast structures change (no session is created,
the picking and moving flags and all transforms are untouched). -/
theorem C3_sole_part_declines (mouse_pos : V2) (camera : Camera) (st : CanvasState)
    (rc : RaycastManager) (up_limit : Option ℝ) (i : ℕ) (gl : GLVolume)
    (object : ModelObject)
    (hsel : get_selected_gl_volume st = some (i, gl))
    (hobj : get_model_object gl st.objects = some object)
    (hsole : is_the_only_one_part object = true) :
    start_dragging mouse_pos camera st rc up_limit = .ok (false, st, rc) := by
  unfold start_dragging
  simp only [hsel]
  by_cases h0 : st.hover_idx < 0
  · simp [h0]
  · by_cases h1 : st.hover_idx.toNat ≥ st.volumes.length ∨ st.hover_idx.toNat ≠ i
    · simp [h0, h1]
    · simp only [if_neg h0, if_neg h1, hobj]
      rcases hi : get_model_instance gl object with _ | inst
      · simp [hi]
      · rcases hv : get_model_volume_of gl object with _ | vol
        · simp [hi, hv]
        · simp [hi, hv, hsole]

/-- Witness for C3: pressing on the sole part of a single-part object. -/
theorem C3_sole_part_declines_witness :
    start_dragging ((0 : ℝ), (0 : ℝ)) camera0 st_sole rcNone none =
      .ok (false, st_sole, rcNone) :=
  C3_sole_part_declines ((0 : ℝ), (0 : ℝ)) camera0 st_sole rcNone none 0 glv0 obj_sole
    rfl rfl rfl

/-- C9: a successful drag step assigns one computed local transform to every
scene volume whose object and volume indices equal the dragged volume's, and
to no other, so all instances of the one logical volume hold identical local
transforms afterwards; the step reports the event as consumed. -/
theorem C9_broadcast_identity (mouse_pos : V2) (camera : Camera) (sd : SurfaceDrag)
    (st : CanvasState) (rc : RaycastManager) (up_limit : Option ℝ) (hit : Hit)
    (hray : ray_from_camera rc (v2add mouse_pos sd.mouse_offset_without_sla_shift)
        camera sd.condition = some hit) :
    (dragging mouse_pos camera sd st rc up_limit).1 = true
    ∧ ∃ t, (dragging mouse_pos camera sd st rc up_limit).2.2.volumes =
        st.volumes.map fun v =>
          if v.object_idx = sd.gl_volume.object_idx
              ∧ v.volume_idx = sd.gl_volume.volume_idx
          then { v with volume_tr := t } else v := by
  constructor
  · unfold dragging
    simp only [hray]
    split_ifs with hg
    · rfl
    · rfl
  · unfold dragging
    simp only [hray]
    split_ifs with hg
    · exact absurd rfl hg
    · exact ⟨_, rfl⟩

/-- Witness for C9 at a concrete dragging state whose raycast always hits. -/
theorem C9_broadcast_identity_witness :
    (dragging ((0 : ℝ), (0 : ℝ)) camera0 sd0 st_drag rcHit none).1 = true
    ∧ ∃ t, (dragging ((0 : ℝ), (0 : ℝ)) camera0 sd0 st_drag rcHit none).2.2.volumes =
        st_drag.volumes.map fun v =>
          if v.object_idx = sd0.gl_volume.object_idx
              ∧ v.volume_idx = sd0.gl_volume.volume_idx
          then { v with volume_tr := t } else v :=
  C9_broadcast_identity ((0 : ℝ), (0 : ℝ)) camera0 sd0 st_drag rcHit none hit0 rfl

/-- C10: under the earlier drag-start checks (a selected and hovered volume
whose object, instance and model volume resolve and which is not the sole
part), the unguarded read of the optional emboss shape at line 492 hits the
absent case exactly when the volume carries no emboss shape; every volume
with an emboss shape passes the read safely. -/
theorem C10_unguarded_emboss_read (mouse_pos : V2) (camera : Camera) (st : CanvasState)
    (rc : RaycastManager) (up_limit : Option ℝ) (i : ℕ) (gl : GLVolume)
    (object : ModelObject) (inst : ModelInstance) (volume : ModelVolume)
    (hsel : get_selected_gl_volume st = some (i, gl))
    (hh0 : ¬ st.hover_idx < 0)
    (hh1 : ¬ (st.hover_idx.toNat ≥ st.volumes.length ∨ st.hover_idx.toNat ≠ i))
    (hobj : get_model_object gl st.objects = some object)
    (hinst : get_model_instance gl object = some inst)
    (hvol : get_model_volume_of gl object = some volume)
    (hsole : is_the_only_one_part object = false) :
    start_dragging mouse_pos camera st rc up_limit = .error .embossShapeDeref
      ↔ volume.emboss_shape = none := by
  unfold start_dragging
  simp only [hsel, if_neg hh0, if_neg hh1, hobj, hinst, hvol, hsole,
    Bool.false_eq_true, if_false]
  rcases he : volume.emboss_shape with _ | es
  · simp
  · simp

/-- Witness for C10: a state passing every earlier check whose selected
model volume has no emboss shape makes the unguarded read hit the absent
case. -/
theorem C10_unguarded_emboss_read_witness :
    start_dragging ((0 : ℝ), (0 : ℝ)) camera0 st_idle rcNone none =
      .error .embossShapeDeref :=
  (C10_unguarded_emboss_read ((0 : ℝ), (0 : ℝ)) camera0 st_idle rcNone none 0 glv0
    obj2 inst0 mvA rfl (by decide) (by decide) rfl rfl rfl rfl).mpr rfl


/-- The anchor-to-hit offset in world space, as computed inside
calc_distance (SurfaceDrag.cpp lines 209-211). -/
noncomputable def p_to_hit (gl : GLVolume) (rc : RaycastManager) (hit : Hit) : V3 :=
  Tr.apply (rc.get_transformation hit.tr_key) hit.position - gl.world_matrix.trans

/-- C6: given a hit, the surface-distance query returns no value exactly
when the squared world distance from the anchor to the hit point is below
1e-4 or exceeds the maximum of four times the squared object depth and 10;
any returned value has its square equal to that squared distance and hence
inside the range. -/
theorem C6_distance_suppression (gl : GLVolume) (rc : RaycastManager) (cond : Cond)
    (hit : Hit)
    (hhit : rc.closest_hit gl.world_matrix.trans (-(get_z_base gl.world_matrix)) cond
      = some hit) :
    (calc_distance gl rc cond = none ↔
      V3.dot (p_to_hit gl rc hit) (p_to_hit gl rc hit) < 1e-4
      ∨ V3.dot (p_to_hit gl rc hit) (p_to_hit gl rc hit)
          > max (4 * gl.bounding_box_size_z ^ 2) 10)
    ∧ ∀ v, calc_distance gl rc cond = some v →
        v ^ 2 = V3.dot (p_to_hit gl rc hit) (p_to_hit gl rc hit)
        ∧ 1e-4 ≤ v ^ 2 ∧ v ^ 2 ≤ max (4 * gl.bounding_box_size_z ^ 2) 10 := by
  have hmax : (2 * gl.bounding_box_size_z) ^ 2 = 4 * gl.bounding_box_size_z ^ 2 := by
    ring
  simp only [p_to_hit]
  unfold calc_distance surface_distance_sq_min surface_distance_sq_max
  simp only [hhit]
  simp only [hmax]
  have hnn : 0 ≤ V3.dot
      (Tr.apply (rc.get_transformation hit.tr_key) hit.position - gl.world_matrix.trans)
      (Tr.apply (rc.get_transformation hit.tr_key) hit.position - gl.world_matrix.trans) :=
    V3.dot_nonneg _
  split_ifs with h1 h2 h3
  · exact ⟨⟨fun _ => Or.inl h1, fun _ => rfl⟩, fun v hv => by simp at hv⟩
  · exact ⟨⟨fun _ => Or.inr h2, fun _ => rfl⟩, fun v hv => by simp at hv⟩
  · refine ⟨⟨fun hc => by simp at hc,
      fun hor => ((hor.elim (fun hlt => absurd hlt h1) (fun hgt => absurd hgt h2) : False)).elim⟩,
      fun v hv => ?_⟩
    have hvE := Option.some_inj.mp hv
    rw [← hvE, one_mul]
    rw [Real.sq_sqrt hnn]
    exact ⟨rfl, not_lt.mp h1, not_lt.mp h2⟩
  · refine ⟨⟨fun hc => by simp at hc,
      fun hor => ((hor.elim (fun hlt => absurd hlt h1) (fun hgt => absurd hgt h2) : False)).elim⟩,
      fun v hv => ?_⟩
    have hvE := Option.some_inj.mp hv
    rw [← hvE, neg_one_mul, neg_sq]
    rw [Real.sq_sqrt hnn]
    exact ⟨rfl, not_lt.mp h1, not_lt.mp h2⟩

/-- Witness for C6 at a concrete in-range hit: the query is not suppressed. -/
theorem C6_distance_suppression_witness :
    calc_distance glv0 rcHit [] ≠ none := by
  have h := (C6_distance_suppression glv0 rcHit [] hit0 rfl).1
  intro hnone
  have hor := h.mp hnone
  have hph : p_to_hit glv0 rcHit hit0 = ⟨0, 0, -2⟩ := by
    norm_num [p_to_hit, rcHit, glv0, hit0, Tr.apply, Tr.idT, Tr.comp, translZ,
      GLVolume.world_matrix, M3.mulVec, M3.id3, m3_mul_def, v3_add_def, v3_sub_def,
      v3_smul_def]
  rw [hph] at hor
  have hz : glv0.bounding_box_size_z = 1 := rfl
  rw [hz] at hor
  norm_num [V3.dot] at hor

/-- C7: a returned surface distance has the norm of the anchor-to-hit offset
as its magnitude, is positive exactly when the offset's dot product with the
forward ray direction is strictly positive, and is negative otherwise. -/
theorem C7_sign_encoding (gl : GLVolume) (rc : RaycastManager) (cond : Cond) (hit : Hit)
    (hhit : rc.closest_hit gl.world_matrix.trans (-(get_z_base gl.world_matrix)) cond
      = some hit)
    (hlo : ¬ V3.dot (p_to_hit gl rc hit) (p_to_hit gl rc hit) < 1e-4)
    (hhi : ¬ V3.dot (p_to_hit gl rc hit) (p_to_hit gl rc hit)
        > max ((2 * gl.bounding_box_size_z) ^ 2) 10) :
    ∃ v, calc_distance gl rc cond = some v
      ∧ |v| = V3.norm (p_to_hit gl rc hit)
      ∧ (0 < v ↔ 0 < V3.dot (p_to_hit gl rc hit) (-(get_z_base gl.world_matrix)))
      ∧ (v < 0 ↔ ¬ 0 < V3.dot (p_to_hit gl rc hit) (-(get_z_base gl.world_matrix))) := by
  simp only [p_to_hit] at hlo hhi ⊢
  have hD0 : (0 : ℝ) < V3.dot
      (Tr.apply (rc.get_transformation hit.tr_key) hit.position - gl.world_matrix.trans)
      (Tr.apply (rc.get_transformation hit.tr_key) hit.position - gl.world_matrix.trans) :=
    lt_of_lt_of_le (by norm_num) (not_lt.mp hlo)
  have hs : 0 < Real.sqrt (V3.dot
      (Tr.apply (rc.get_transformation hit.tr_key) hit.position - gl.world_matrix.trans)
      (Tr.apply (rc.get_transformation hit.tr_key) hit.position - gl.world_matrix.trans)) :=
    Real.sqrt_pos.mpr hD0
  unfold calc_distance surface_distance_sq_min surface_distance_sq_max
  simp only [hhit]
  rw [if_neg hlo, if_neg hhi]
  by_cases hdot : V3.dot
      (Tr.apply (rc.get_transformation hit.tr_key) hit.position - gl.world_matrix.trans)
      (-(get_z_base gl.world_matrix)) > 0
  · rw [if_pos hdot]
    refine ⟨_, rfl, ?_, ?_, ?_⟩
    · rw [one_mul, abs_of_pos hs]
      unfold V3.norm
      rfl
    · exact iff_of_true (by rw [one_mul]; exact hs) hdot
    · exact iff_of_false (by rw [one_mul]; exact not_lt.mpr hs.le) (not_not_intro hdot)
  · rw [if_neg hdot]
    refine ⟨_, rfl, ?_, ?_, ?_⟩
    · rw [neg_one_mul, abs_neg, abs_of_pos hs]
      unfold V3.norm
      rfl
    · exact iff_of_false (by rw [neg_one_mul]; exact not_lt.mpr (neg_nonpos.mpr hs.le)) hdot
    · exact iff_of_true (by rw [neg_one_mul]; exact neg_lt_zero.mpr hs) hdot

/-- Witness for C7 at a concrete hit directly behind the anchor along the
forward ray: the returned distance is positive with the offset's norm. -/
theorem C7_sign_encoding_witness :
    ∃ v, calc_distance glv0 rcHit [] = some v
      ∧ |v| = V3.norm (p_to_hit glv0 rcHit hit0)
      ∧ (0 < v ↔ 0 < V3.dot (p_to_hit glv0 rcHit hit0) (-(get_z_base glv0.world_matrix)))
      ∧ (v < 0 ↔ ¬ 0 < V3.dot (p_to_hit glv0 rcHit hit0)
          (-(get_z_base glv0.world_matrix))) := by
  have hph : p_to_hit glv0 rcHit hit0 = ⟨0, 0, -2⟩ := by
    norm_num [p_to_hit, rcHit, glv0, hit0, Tr.apply, Tr.idT, Tr.comp, translZ,
      GLVolume.world_matrix, M3.mulVec, M3.id3, m3_mul_def, v3_add_def, v3_sub_def,
      v3_smul_def]
  apply C7_sign_encoding glv0 rcHit [] hit0 rfl
  · rw [hph]
    norm_num [V3.dot]
  · rw [hph]
    have hz : glv0.bounding_box_size_z = 1 := rfl
    rw [hz]
    norm_num [V3.dot]

/-- C5 (code bug): with the camera direction in volume space exactly
opposite the emboss direction, the embedded face-to-camera operation reaches
the degenerate branch and applies the rotation the source builds there,
AngleAxis(M_PI_2, y) — a quarter turn that sends the emboss axis to
⟨-1,0,0⟩ — whereas the 180 degree turn stated by the spec and by the
source's own comment (rotate 180 DEG by y) sends it to ⟨0,0,1⟩, the camera
direction. -/
theorem C5_face_degenerate_quarter_turn :
    (face_selected_volume_to_camera camera0 st_idle).1 = true
    ∧ face_vol_rot (V3.normalize ((world_matrix_fixed_sel st_idle).inv.linear.mulVec
        camera0.dir_forward)) = rotTr (angleAxisMat (Real.pi / 2) ⟨0, 1, 0⟩)
    ∧ (angleAxisMat (Real.pi / 2) ⟨0, 1, 0⟩).mulVec ⟨0, 0, -1⟩ = ⟨-1, 0, 0⟩
    ∧ (angleAxisMat Real.pi ⟨0, 1, 0⟩).mulVec ⟨0, 0, -1⟩ = ⟨0, 0, 1⟩
    ∧ (⟨-1, 0, 0⟩ : V3) ≠ (⟨0, 0, 1⟩ : V3) := by
  have hW : world_matrix_fixed_sel st_idle = Tr.idT := by
    show Tr.comp (translZ 0) (Tr.comp Tr.idT Tr.idT) = Tr.idT
    norm_num [Tr.comp, Tr.idT, translZ, m3_mul_def, M3.mulVec, M3.id3,
      v3_smul_def, v3_add_def]
  have hInv : Tr.inv Tr.idT = Tr.idT := by
    norm_num [Tr.inv, M3.inv, M3.det, Tr.idT, M3.id3, M3.mulVec,
      v3_smul_def, v3_add_def, v3_neg_def]
  have hcd : V3.normalize ((world_matrix_fixed_sel st_idle).inv.linear.mulVec
      camera0.dir_forward) = ⟨0, 0, 1⟩ := by
    rw [hW, hInv]
    have h1 : M3.mulVec Tr.idT.linear camera0.dir_forward = ⟨0, 0, 1⟩ := by
      norm_num [Tr.idT, M3.id3, M3.mulVec, camera0, v3_smul_def, v3_add_def]
    rw [h1]
    norm_num [V3.normalize, V3.norm, V3.dot, v3_smul_def, Real.sqrt_one]
  have hnotapprox : ¬ is_approx_v3 (⟨0, 0, 1⟩ : V3) (⟨0, 0, -1⟩ : V3) := by
    norm_num [is_approx_v3, is_approx, EPSILON]
  have happrox : is_approx_v3 (⟨0, 0, 1⟩ : V3) (-(⟨0, 0, -1⟩ : V3)) := by
    norm_num [is_approx_v3, is_approx, EPSILON, v3_neg_def]
  have hrot : face_vol_rot (⟨0, 0, 1⟩ : V3) =
      rotTr (angleAxisMat (Real.pi / 2) ⟨0, 1, 0⟩) := by
    unfold face_vol_rot
    rw [if_pos happrox]
  refine ⟨?_, ?_, ?_, ?_, ?_⟩
  · have hsel : get_selected_gl_volume st_idle = some (0, glv0) := rfl
    unfold face_selected_volume_to_camera
    simp only [hsel]
    rw [hcd]
    rw [if_neg hnotapprox]
  · rw [hcd]
    exact hrot
  · norm_num [angleAxisMat, Real.cos_pi_div_two, Real.sin_pi_div_two, M3.id3,
      M3.crossMat, M3.outer, M3.mulVec, m3_add_def, m3_smul_def,
      v3_smul_def, v3_add_def, v3_neg_def]
  · norm_num [angleAxisMat, Real.cos_pi, Real.sin_pi, M3.id3,
      M3.crossMat, M3.outer, M3.mulVec, m3_add_def, m3_smul_def,
      v3_smul_def, v3_add_def, v3_neg_def]
  · norm_num [V3.mk.injEq]
